import Mathlib

/-
Verification of the FileBot repository's consolidated core (src/database.py,
src/admin_handlers.py) against its natural-language specification.

The relational store of src/database.py is embedded shallowly: each table is a
list of rows, each SQL UPDATE maps a row-transformer over the list, an INSERT
appends, and SERIAL keys are drawn from an explicit counter.  Timestamps are
integers (seconds); `timedelta(days = d)` is `d * 86400`.  Python floats used
for `storage_used_gb` / `file_size_gb` are modelled as rationals.  Every
`CURRENT_TIMESTAMP` / `datetime.now()` in a method becomes an explicit `now`
argument of the corresponding Lean function.
-/

namespace FileBot

/-- Row of the `users` table (src/database.py, init_tables). -/
structure UserRow where
  user_id : Int
  username : String
  first_name : String
  last_name : Option String
  profile_link : Option String
  secret_code : Option String
  is_approved : Bool
  is_admin : Bool
  is_banned : Bool
  join_date : Int
  last_active : Int
deriving Repr, DecidableEq

/-- Row of the `subscriptions` table. -/
structure SubRow where
  sub_id : Int
  user_id : Int
  plan_type : String
  storage_limit_gb : Int
  storage_used_gb : ℚ
  start_date : Int
  expiry_date : Int
  is_active : Bool
  payment_method : Option String
  transaction_id : Option String
  auto_renew : Bool
  created_at : Int
  updated_at : Int
deriving Repr, DecidableEq

/-- Row of the `files` table. -/
structure FileRow where
  file_id : Int
  user_id : Int
  file_name : String
  file_type : String
  file_size : Int
  file_path : String
  telegram_file_id : String
  upload_date : Int
  is_encrypted : Bool
  encryption_key : Option String
  share_count : Int
  is_shared : Bool
  shared_link : Option String
  description : Option String
  tags : List String
  last_accessed : Int
  access_count : Int
deriving Repr, DecidableEq

/-- Row of the `payment_tickets` table (bank_details kept as its JSON text). -/
structure TicketRow where
  ticket_id : String
  user_id : Int
  plan_type : String
  amount : ℚ
  currency : String
  status : String
  payment_method : Option String
  qr_code_path : Option String
  upi_id : Option String
  bank_details : Option String
  created_at : Int
  processed_at : Option Int
  group_chat_id : Option Int
  admin_notes : Option String
deriving Repr, DecidableEq

/-- Row of the `file_access_logs` table. -/
structure AccessLogRow where
  access_id : Int
  file_id : Int
  accessed_by : Option Int
  access_type : String
  accessed_at : Int
deriving Repr, DecidableEq

/-- The relational store of src/database.py restricted to the tables the
modelled operations touch.  `next_sub_id`, `next_file_id` realise the SERIAL
primary keys. -/
structure Db where
  users : List UserRow
  subscriptions : List SubRow
  next_sub_id : Int
  files : List FileRow
  next_file_id : Int
  file_access_logs : List AccessLogRow
  payment_tickets : List TicketRow
deriving Repr, DecidableEq

/-- Freshly initialised store (empty tables, SERIAL counters at 1). -/
def Db.empty : Db :=
  { users := [], subscriptions := [], next_sub_id := 1,
    files := [], next_file_id := 1, file_access_logs := [],
    payment_tickets := [] }

/-! ### User management (src/database.py lines 268-360) -/

/-- Fresh row inserted by `create_user` when no row with this `user_id`
exists: only the five display columns are supplied, the remaining columns
take their schema defaults. -/
def newUserRow (user_id : Int) (username first_name : String)
    (last_name profile_link : Option String) (now : Int) : UserRow :=
  { user_id := user_id, username := username, first_name := first_name,
    last_name := last_name, profile_link := profile_link,
    secret_code := none, is_approved := false, is_admin := false,
    is_banned := false, join_date := now, last_active := now }

/-- The `ON CONFLICT (user_id) DO UPDATE` arm of `create_user`: refresh the
display columns and `last_active` of the matching row, leave everything else
alone. -/
def refreshUser (user_id : Int) (username first_name : String)
    (last_name profile_link : Option String) (now : Int) (r : UserRow) : UserRow :=
  if r.user_id = user_id then
    { r with username := username, first_name := first_name,
             last_name := last_name, profile_link := profile_link,
             last_active := now }
  else r

/-- `Database.create_user` (src/database.py lines 268-286): an
`INSERT ... ON CONFLICT (user_id) DO UPDATE` upsert; returns True. -/
def create_user (db : Db) (user_id : Int) (username first_name : String)
    (last_name profile_link : Option String) (now : Int) : Bool × Db :=
  if db.users.any (fun r => r.user_id == user_id) then
    let refreshed := db.users.map (refreshUser user_id username first_name last_name profile_link now)
    (true, { db with users := refreshed })
  else
    let inserted := db.users ++ [newUserRow user_id username first_name last_name profile_link now]
    (true, { db with users := inserted })

/-- `Database.approve_user` (lines 320-332):
`UPDATE users SET is_approved = TRUE, secret_code = NULL WHERE user_id = $1`;
returns True whether or not any row matched. -/
def approve_user (db : Db) (user_id : Int) : Bool × Db :=
  (true, { db with users := db.users.map (fun r =>
    if r.user_id = user_id then
      { r with is_approved := true, secret_code := none }
    else r) })

/-- `Database.ban_user` (lines 334-346):
`UPDATE users SET is_banned = TRUE, is_approved = FALSE WHERE user_id = $1`;
returns True whether or not any row matched. -/
def ban_user (db : Db) (user_id : Int) : Bool × Db :=
  (true, { db with users := db.users.map (fun r =>
    if r.user_id = user_id then
      { r with is_banned := true, is_approved := false }
    else r) })

/-- `Database.unban_user` (lines 348-360):
`UPDATE users SET is_banned = FALSE, is_approved = TRUE WHERE user_id = $1`;
returns True whether or not any row matched. -/
def unban_user (db : Db) (user_id : Int) : Bool × Db :=
  (true, { db with users := db.users.map (fun r =>
    if r.user_id = user_id then
      { r with is_banned := false, is_approved := true }
    else r) })

/-! ### Subscription management (src/database.py lines 406-544) -/

/-- The deactivation UPDATE inside `create_subscription`:
`UPDATE subscriptions SET is_active = FALSE WHERE user_id = $1 AND is_active = TRUE`. -/
def deactivateFor (user_id : Int) (s : SubRow) : SubRow :=
  if s.user_id = user_id ∧ s.is_active = true then { s with is_active := false } else s

/-- `Database.create_subscription` (lines 406-434): deactivates every active
subscription of the user, then inserts a new row with
`expiry_date = start_date + timedelta(days = duration_days)` and the schema
defaults (`is_active = TRUE`, `storage_used_gb = 0`); returns True. -/
def create_subscription (db : Db) (user_id : Int) (plan_type : String)
    (storage_limit_gb duration_days : Int)
    (payment_method transaction_id : Option String) (now : Int) : Bool × Db :=
  let start_date := now
  let expiry_date := start_date + duration_days * 86400
  (true, { db with
    subscriptions :=
      db.subscriptions.map (deactivateFor user_id) ++
      [{ sub_id := db.next_sub_id, user_id := user_id, plan_type := plan_type,
         storage_limit_gb := storage_limit_gb, storage_used_gb := 0,
         start_date := start_date, expiry_date := expiry_date, is_active := true,
         payment_method := payment_method, transaction_id := transaction_id,
         auto_renew := false, created_at := now, updated_at := now }],
    next_sub_id := db.next_sub_id + 1 })

/-- `Database.update_storage_usage` (lines 451-473): adds or removes
`file_size_gb` on every active subscription row of the user; the `remove`
branch clamps at zero via `GREATEST(storage_used_gb - $1, 0)`.  A third
operation string falls through both branches and changes nothing.  Returns
True in every case. -/
def update_storage_usage (db : Db) (user_id : Int) (file_size_gb : ℚ)
    (operation : String) (now : Int) : Bool × Db :=
  if operation = "add" then
    (true, { db with subscriptions := db.subscriptions.map (fun s =>
      if s.user_id = user_id ∧ s.is_active = true then
        { s with storage_used_gb := s.storage_used_gb + file_size_gb,
                 updated_at := now }
      else s) })
  else if operation = "remove" then
    (true, { db with subscriptions := db.subscriptions.map (fun s =>
      if s.user_id = user_id ∧ s.is_active = true then
        { s with storage_used_gb := max (s.storage_used_gb - file_size_gb) 0,
                 updated_at := now }
      else s) })
  else (true, db)

/-- `Database.check_storage_available` (lines 475-492): a SELECT-only check;
returns False when the user has no active subscription, otherwise compares
`storage_limit_gb - storage_used_gb >= file_size_gb`.  It mutates nothing —
its Lean type `Db → Int → ℚ → Bool` records that. -/
def check_storage_available (db : Db) (user_id : Int) (file_size_gb : ℚ) : Bool :=
  match db.subscriptions.find? (fun s => s.user_id == user_id && s.is_active) with
  | none => false
  | some sub => decide ((sub.storage_limit_gb : ℚ) - sub.storage_used_gb ≥ file_size_gb)

/-- `Database.renew_subscription` (lines 512-544): fetches the active
subscription (returning False without mutation when there is none), computes
the new expiry — extended from the current expiry when it lies in the future,
restarted from `now` otherwise — and writes plan and expiry onto the active
rows of the user. -/
def renew_subscription (db : Db) (user_id : Int) (plan_type : String)
    (duration_days : Int) (now : Int) : Bool × Db :=
  match db.subscriptions.find? (fun s => s.user_id == user_id && s.is_active) with
  | none => (false, db)
  | some current =>
    let new_expiry :=
      if current.expiry_date > now then current.expiry_date + duration_days * 86400
      else now + duration_days * 86400
    (true, { db with subscriptions := db.subscriptions.map (fun s =>
      if s.user_id = user_id ∧ s.is_active = true then
        { s with plan_type := plan_type, expiry_date := new_expiry, updated_at := now }
      else s) })

/-! ### File management (src/database.py lines 564-679) -/

/-- `Database.add_file` (lines 564-595).  `cipher` models the optional Fernet
cipher built from the `ENCRYPTION_KEY` environment variable (`none` when the
variable is unset) and `fresh_key` the key produced by
`Fernet.generate_key()` when a cipher is present.  The method inserts the file
row (schema defaults for the unsupplied columns, `is_encrypted` defaults to
TRUE regardless of the cipher), then increments storage usage by
`file_size / 1024 ** 3` — with no quota check of any kind. -/
def add_file (db : Db) (cipher : Option (String → String)) (fresh_key : String)
    (user_id : Int) (file_name file_type : String) (file_size : Int)
    (file_path telegram_file_id : String) (description : Option String)
    (tags : Option (List String)) (now : Int) : Option Int × Db :=
  let encrypted_path :=
    match cipher with
    | some enc => enc file_path
    | none => file_path
  let encryption_key :=
    match cipher with
    | some _ => some fresh_key
    | none => none
  let fid := db.next_file_id
  let db1 : Db :=
    { db with
      files := db.files ++
        [{ file_id := fid, user_id := user_id, file_name := file_name,
           file_type := file_type, file_size := file_size,
           file_path := encrypted_path, telegram_file_id := telegram_file_id,
           upload_date := now, is_encrypted := true,
           encryption_key := encryption_key, share_count := 0,
           is_shared := false, shared_link := none, description := description,
           tags := tags.getD [], last_accessed := now, access_count := 0 }],
      next_file_id := db.next_file_id + 1 }
  let file_size_gb : ℚ := (file_size : ℚ) / (1024 ^ 3)
  (some fid, (update_storage_usage db1 user_id file_size_gb ("add") now).2)

/-- `Database.delete_file` (lines 650-679): looks the file up (False when
absent); when a `user_id` was passed, the Python guard
`if user_id and file['user_id'] != user_id` rejects only a *truthy* mismatched
caller (None and 0 are falsy, so they skip the ownership check).  On the
delete path it removes the file row, releases `file_size / 1024 ** 3` from the
owner's storage, and purges the file's access-log rows. -/
def delete_file (db : Db) (file_id : Int) (user_id : Option Int) (now : Int) :
    Bool × Db :=
  match db.files.find? (fun f => f.file_id == file_id) with
  | none => (false, db)
  | some file =>
    if (match user_id with
        | some uid => uid != 0 && file.user_id != uid
        | none => false : Bool) then
      (false, db)
    else
      let db1 : Db := { db with files := db.files.filter (fun f => !(f.file_id == file_id)) }
      let file_size_gb : ℚ := (file.file_size : ℚ) / (1024 ^ 3)
      let db2 := (update_storage_usage db1 file.user_id file_size_gb ("remove") now).2
      let db3 : Db :=
        { db2 with file_access_logs :=
            db2.file_access_logs.filter (fun a => !(a.file_id == file_id)) }
      (true, db3)

/-! ### Payment tickets (src/database.py lines 788-943) -/

/-- `Database.create_payment_ticket` (lines 788-807): plain INSERT with schema
defaults `currency = INR`, `status = pending`; a duplicate `ticket_id`
violates the primary key, the raised exception is caught and False returned. -/
def create_payment_ticket (db : Db) (ticket_id : String) (user_id : Int)
    (plan_type : String) (amount : ℚ)
    (payment_method qr_code_path upi_id bank_details : Option String)
    (now : Int) : Bool × Db :=
  if db.payment_tickets.any (fun t => t.ticket_id == ticket_id) then
    (false, db)
  else
    (true, { db with payment_tickets := db.payment_tickets ++
      [{ ticket_id := ticket_id, user_id := user_id, plan_type := plan_type,
         amount := amount, currency := "INR", status := "pending",
         payment_method := payment_method, qr_code_path := qr_code_path,
         upi_id := upi_id, bank_details := bank_details, created_at := now,
         processed_at := none, group_chat_id := none, admin_notes := none }] })

/-- `Database.mark_ticket_completed` (lines 913-927): unconditionally writes
`status = completed`, `processed_at`, `admin_notes` on the matching ticket —
there is no check of the ticket's current status; returns True. -/
def mark_ticket_completed (db : Db) (ticket_id : String)
    (admin_notes : Option String) (now : Int) : Bool × Db :=
  (true, { db with payment_tickets := db.payment_tickets.map (fun t =>
    if t.ticket_id = ticket_id then
      { t with status := "completed", processed_at := some now,
               admin_notes := admin_notes }
    else t) })

/-- `Database.mark_ticket_failed` (lines 929-943): identical to
`mark_ticket_completed` except it writes `status = failed`; again no check of
the current status. -/
def mark_ticket_failed (db : Db) (ticket_id : String)
    (admin_notes : Option String) (now : Int) : Bool × Db :=
  (true, { db with payment_tickets := db.payment_tickets.map (fun t =>
    if t.ticket_id = ticket_id then
      { t with status := "failed", processed_at := some now,
               admin_notes := admin_notes }
    else t) })

/-! ### Admin ticket-management handler (src/admin_handlers.py) -/

/-- `AdminHandlers.is_admin` (src/admin_handlers.py lines 1665-1667): the user
is an admin iff they are the configured `ADMIN_USER_ID` (`admin_id` here). -/
def is_admin (admin_id user_id : Int) : Bool := user_id == admin_id

/-- Observable outcome of `AdminHandlers.handle_ticket_management`: which
display action the handler takes.  `unauthorized` is the authorization-error
response the specification demands for non-admin callers; it is part of the
response vocabulary so that its absence from the handler can be stated. -/
inductive AdminResponse where
  | showTicketList (status : String)
  | showTicketDetail (ticket_id : String)
  | answerOnly
  | unauthorized
deriving Repr, DecidableEq

/-- Python's `str.startswith`, computed on the underlying character lists
(Lean's own `String.startsWith` is compiled code that proofs cannot
evaluate). -/
def strStartsWith (s p : String) : Bool :=
  s.data.take p.data.length == p.data

/-- Strip one leading occurrence of `p` from `s` — on payloads that start
with `p` and contain it only there (the only payloads the admin panel
produces) this agrees with the Python `data.replace(p, erased-string)`. -/
def stripLeading (s p : String) : String :=
  String.mk (s.data.drop p.data.length)

/-- `AdminHandlers.handle_ticket_management` (src/admin_handlers.py lines
858-872): dispatches on the callback data.  The `tickets_*` branches render a
ticket list, `ticket_detail_*` renders one ticket (both SELECT-only);
*every other* payload — including the `ticket_complete_*` and `ticket_fail_*`
payloads produced by the Mark-Complete / Mark-Failed buttons of
`show_ticket_detail` — falls through to the trailing `callback_query.answer()`
alone.  The handler never consults `caller_id` and never mutates the store. -/
def handle_ticket_management (db : Db) (caller_id : Int) (data : String) :
    AdminResponse × Db :=
  if data = "tickets_pending" then (AdminResponse.showTicketList ("pending"), db)
  else if data = "tickets_completed" then (AdminResponse.showTicketList ("completed"), db)
  else if data = "tickets_failed" then (AdminResponse.showTicketList ("failed"), db)
  else if strStartsWith data ("ticket_detail_") then
    (AdminResponse.showTicketDetail (stripLeading data ("ticket_detail_")), db)
  else (AdminResponse.answerOnly, db)

/-! ### Operation sequences for the invariant claims -/

/-- One `create_subscription` call (the spec's `activate`). -/
structure ActivateCall where
  user_id : Int
  plan_type : String
  storage_limit_gb : Int
  duration_days : Int
  payment_method : Option String
  transaction_id : Option String
  now : Int
deriving Repr, DecidableEq

/-- Run a sequence of `create_subscription` calls. -/
def runActivates : Db → List ActivateCall → Db
  | db, [] => db
  | db, c :: cs =>
    runActivates (create_subscription db c.user_id c.plan_type c.storage_limit_gb
      c.duration_days c.payment_method c.transaction_id c.now).2 cs

/-- The active subscriptions of one account. -/
def activeSubsFor (db : Db) (user_id : Int) : List SubRow :=
  db.subscriptions.filter (fun s => s.user_id == user_id && s.is_active)

/-- Account-registry operations of the spec: register / approve / ban / unban. -/
inductive UserOp where
  | register (user_id : Int) (username first_name : String)
      (last_name profile_link : Option String) (now : Int)
  | approve (user_id : Int)
  | ban (user_id : Int)
  | unban (user_id : Int)
deriving Repr, DecidableEq

/-- Apply one account-registry operation. -/
def applyUserOp (db : Db) : UserOp → Db
  | .register uid un fn ln pl now => (create_user db uid un fn ln pl now).2
  | .approve uid => (approve_user db uid).2
  | .ban uid => (ban_user db uid).2
  | .unban uid => (unban_user db uid).2

/-- Run a sequence of account-registry operations. -/
def runUserOps : Db → List UserOp → Db
  | db, [] => db
  | db, op :: ops => runUserOps (applyUserOp db op) ops

/-- Holds when the operation is not an `approve` aimed at a currently banned
account (the precondition under which the banned-implies-unapproved invariant
survives, see C5). -/
def approveGuard (db : Db) : UserOp → Bool
  | .approve uid => db.users.all (fun r => !(r.user_id == uid) || !r.is_banned)
  | _ => true

/-- `approveGuard` holds at every step of the sequence. -/
def guardedUserOps : Db → List UserOp → Bool
  | _, [] => true
  | db, op :: ops => approveGuard db op && guardedUserOps (applyUserOp db op) ops

/-- Storage-accountant operations of the spec: `reserve` is
`check_storage_available` (a pure read), `commit` and `release` are
`update_storage_usage` with operation `add` resp. `remove`. -/
inductive StorageOp where
  | reserve (user_id : Int) (file_size_gb : ℚ)
  | commit (user_id : Int) (file_size_gb : ℚ) (now : Int)
  | release (user_id : Int) (file_size_gb : ℚ) (now : Int)
deriving Repr, DecidableEq

/-- The size carried by a storage operation. -/
def StorageOp.size : StorageOp → ℚ
  | .reserve _ s => s
  | .commit _ s _ => s
  | .release _ s _ => s

/-- Apply one storage operation.  `reserve` evaluates
`check_storage_available`, whose result is a Bool and whose state effect is
the identity (it only SELECTs). -/
def applyStorageOp (db : Db) : StorageOp → Db
  | .reserve uid s => let _avail := check_storage_available db uid s; db
  | .commit uid s now => (update_storage_usage db uid s ("add") now).2
  | .release uid s now => (update_storage_usage db uid s ("remove") now).2

/-- Run a sequence of storage operations. -/
def runStorageOps : Db → List StorageOp → Db
  | db, [] => db
  | db, op :: ops => runStorageOps (applyStorageOp db op) ops

/-- Payment-ticket operations of src/database.py: ticket creation plus the two
admin transitions.  (src/database.py has no operation that writes a `closed`
status.) -/
inductive TicketOp where
  | create (ticket_id : String) (user_id : Int) (plan_type : String) (amount : ℚ)
      (payment_method qr_code_path upi_id bank_details : Option String) (now : Int)
  | complete (ticket_id : String) (admin_notes : Option String) (now : Int)
  | fail (ticket_id : String) (admin_notes : Option String) (now : Int)
deriving Repr, DecidableEq

/-- Apply one ticket operation. -/
def applyTicketOp (db : Db) : TicketOp → Db
  | .create tid uid plan amount pm qr upi bank now =>
    (create_payment_ticket db tid uid plan amount pm qr upi bank now).2
  | .complete tid notes now => (mark_ticket_completed db tid notes now).2
  | .fail tid notes now => (mark_ticket_failed db tid notes now).2

/-- Run a sequence of ticket operations. -/
def runTicketOps : Db → List TicketOp → Db
  | db, [] => db
  | db, op :: ops => runTicketOps (applyTicketOp db op) ops

/-- Status of the ticket with the given id, if present. -/
def ticketStatus (db : Db) (ticket_id : String) : Option String :=
  (db.payment_tickets.find? (fun t => t.ticket_id == ticket_id)).map (fun t => t.status)

/-! ### Shared list helpers -/

/-- A map whose function fixes every element of the list is the identity. -/
theorem map_eq_self_of_fixed {α : Type} (f : α → α) :
    ∀ l : List α, (∀ a ∈ l, f a = a) → l.map f = l
  | [], _ => rfl
  | a :: l, h => by
    rw [List.map_cons, h a (List.mem_cons_self a l),
        map_eq_self_of_fixed f l (fun b hb => h b (List.mem_cons_of_mem a hb))]

/-! ### C1: at most one active subscription per account -/

/-- After the deactivation UPDATE of `create_subscription`, the target user
has no active subscription row left. -/
theorem c1_deactivate_self (uid : Int) :
    ∀ l : List SubRow,
      (l.map (deactivateFor uid)).filter (fun s => s.user_id == uid && s.is_active) = []
  | [] => rfl
  | a :: l => by
    have ih := c1_deactivate_self uid l
    by_cases h : a.user_id = uid ∧ a.is_active = true
    · simp only [List.map_cons, List.filter_cons, deactivateFor, if_pos h]
      simp [ih]
    · simp only [List.map_cons, List.filter_cons, deactivateFor, if_neg h]
      have hpred : (a.user_id == uid && a.is_active) = false := by
        by_cases hb : a.is_active = true
        · have hne : ¬(a.user_id = uid) := fun hu => h ⟨hu, hb⟩
          simp [hne]
        · have hb' : a.is_active = false := by
            cases hab : a.is_active
            · rfl
            · exact absurd hab hb
          simp [hb']
      simp [hpred, ih]

/-- The deactivation UPDATE for `uid` does not change which rows belong
actively to a *different* user. -/
theorem c1_deactivate_other (uid u : Int) (hne : u ≠ uid) :
    ∀ l : List SubRow,
      (l.map (deactivateFor uid)).filter (fun s => s.user_id == u && s.is_active) =
        l.filter (fun s => s.user_id == u && s.is_active)
  | [] => rfl
  | a :: l => by
    have ih := c1_deactivate_other uid u hne l
    by_cases h : a.user_id = uid ∧ a.is_active = true
    · have hau : (a.user_id == u) = false := by
        have : a.user_id ≠ u := by
          rw [h.1]; exact fun hc => hne hc.symm
        simp [this]
      simp only [List.map_cons, List.filter_cons, deactivateFor, if_pos h]
      simp [hau, ih]
    · simp only [List.map_cons, List.filter_cons, deactivateFor, if_neg h]
      rw [ih]

/-- Effect of one `create_subscription` call on the active-subscription count
of each account: the target account ends with exactly one active row, every
other account is untouched. -/
theorem c1_activate_step (db : Db) (c : ActivateCall) (u : Int) :
    (activeSubsFor (create_subscription db c.user_id c.plan_type c.storage_limit_gb
        c.duration_days c.payment_method c.transaction_id c.now).2 u).length =
      if u = c.user_id then 1
      else (activeSubsFor db u).length := by
  unfold activeSubsFor create_subscription
  simp only [List.filter_append]
  by_cases h : u = c.user_id
  · subst h
    rw [c1_deactivate_self c.user_id db.subscriptions]
    simp
  · rw [c1_deactivate_other c.user_id u h db.subscriptions, if_neg h]
    have : (c.user_id == u) = false := by
      have : c.user_id ≠ u := fun hc => h hc.symm
      simp [this]
    simp [this]

/-- Any run of `create_subscription` calls preserves the at-most-one-active
invariant. -/
theorem c1_run_preserves :
    ∀ (calls : List ActivateCall) (db : Db),
      (∀ u, (activeSubsFor db u).length ≤ 1) →
      ∀ u, (activeSubsFor (runActivates db calls) u).length ≤ 1
  | [], _, h, u => h u
  | c :: cs, db, h, u => by
    refine c1_run_preserves cs _ (fun v => ?_) u
    rw [c1_activate_step db c v]
    by_cases hv : v = c.user_id
    · simp [hv]
    · simpa [hv] using h v

/-- Claim C1: for every account and every sequence of activate
(`create_subscription`) calls, at most one subscription belonging to that
account is active at any observed instant — activate deactivates any prior
active subscription of the account before inserting the new one, so a renewal
never leaves two simultaneously active subscriptions. -/
theorem C1_at_most_one_active_subscription (calls : List ActivateCall) (u : Int) :
    (activeSubsFor (runActivates Db.empty calls) u).length ≤ 1 := by
  refine c1_run_preserves calls Db.empty (fun v => ?_) u
  simp [activeSubsFor, Db.empty]

/-! ### C2: quota check vs the actual upload path -/

/-- The approved account of the C2 scenario. -/
def c2User : UserRow :=
  { user_id := 1, username := "alice", first_name := "Alice",
    last_name := none, profile_link := none, secret_code := none,
    is_approved := true, is_admin := false, is_banned := false,
    join_date := 0, last_active := 0 }

/-- The active 30-day, 5 GB monthly subscription of the C2 scenario. -/
def c2Sub : SubRow :=
  { sub_id := 1, user_id := 1, plan_type := "monthly",
    storage_limit_gb := 5, storage_used_gb := 0, start_date := 0,
    expiry_date := 2592000, is_active := true, payment_method := none,
    transaction_id := none, auto_renew := false, created_at := 0,
    updated_at := 0 }

/-- Store for the C2 scenario: account 1 is approved and holds an active
monthly subscription with a 5 GB limit and 0 GB used. -/
def c2Db : Db :=
  { Db.empty with users := [c2User], subscriptions := [c2Sub], next_sub_id := 2 }

/-- The result of uploading a 6 GB file (6 * 1024³ = 6442450944 bytes) to the
account of `c2Db` via `add_file` (no cipher configured). -/
def c2Upload : Option Int × Db :=
  add_file c2Db none ("") 1 ("big.bin") ("document") 6442450944 ("/tmp/big.bin")
    ("tg-file-1") none none 10

/-- Claim C2.  The first conjunct confirms the `check_storage_available` part
of the claim on the 6-GB-against-5-GB scenario: it returns False (and, being
SELECT-only, mutates nothing).  The remaining conjuncts document the code bug
the claim's consequence runs into: nothing in the repository ever calls
`check_storage_available` — `add_file` performs no quota check — so the 6 GB
upload is *not* refused: it returns a fresh file id, stores the file record,
and raises the subscription's used counter to 6 GB instead of leaving it 0. -/
theorem C2_upload_bypasses_quota_check :
    check_storage_available c2Db 1 6 = false ∧
    c2Upload.1 = some 1 ∧
    c2Upload.2.files.map (fun f => (f.file_name, f.file_size)) =
      [("big.bin", 6442450944)] ∧
    c2Upload.2.subscriptions.map (fun s => s.storage_used_gb) = [6] := by
  refine ⟨?_, by decide, by decide, ?_⟩
  · norm_num [check_storage_available, c2Db, c2Sub, c2User, Db.empty, List.find?]
  · norm_num [c2Upload, add_file, update_storage_usage, c2Db, c2Sub, c2User, Db.empty]

/-! ### C3: ticket status state machine -/

/-- Open a payment ticket T1 and mark it completed: the ticket reaches the
terminal status `completed`. -/
def c3OpsCompleted : List TicketOp :=
  [TicketOp.create ("T1") 7 ("monthly") 25 none none none none 0,
   TicketOp.complete ("T1") none 10]

/-- The same run followed by `mark_ticket_failed` on the already-completed
ticket. -/
def c3OpsThenFailed : List TicketOp :=
  c3OpsCompleted ++ [TicketOp.fail ("T1") none 20]

/-- Counterexample to claim C3 as stated: after reaching the terminal status
`completed`, a further `mark_ticket_failed` moves ticket T1 to the *other*
terminal status `failed` — `mark_ticket_failed` overwrites the status
unconditionally, so terminal statuses are not sticky. -/
theorem C3_counterexample_terminal_not_sticky :
    ticketStatus (runTicketOps Db.empty c3OpsCompleted) ("T1") = some ("completed") ∧
    ticketStatus (runTicketOps Db.empty c3OpsThenFailed) ("T1") = some ("failed") := by
  refine ⟨by decide, by decide⟩

/-- Every run of the ticket operations keeps every status inside
pending / completed / failed. -/
theorem c3_status_range_aux :
    ∀ (ops : List TicketOp) (db : Db),
      (∀ t ∈ db.payment_tickets,
        t.status = "pending" ∨ t.status = "completed" ∨ t.status = "failed") →
      ∀ t ∈ (runTicketOps db ops).payment_tickets,
        t.status = "pending" ∨ t.status = "completed" ∨ t.status = "failed"
  | [], _, h, t, ht => h t ht
  | op :: ops, db, h, t, ht => by
    refine c3_status_range_aux ops (applyTicketOp db op) (fun u hu => ?_) t ht
    cases op with
    | create tid uid plan amount pm qr upi bank now =>
      simp only [applyTicketOp, create_payment_ticket] at hu
      by_cases hdup : db.payment_tickets.any (fun t => t.ticket_id == tid) = true
      · rw [if_pos hdup] at hu
        exact h u hu
      · rw [if_neg hdup] at hu
        simp only [List.mem_append, List.mem_singleton] at hu
        rcases hu with hu | hu
        · exact h u hu
        · subst hu
          left; rfl
    | complete tid notes now =>
      simp only [applyTicketOp, mark_ticket_completed] at hu
      obtain ⟨a, ha, rfl⟩ := List.mem_map.mp hu
      by_cases hm : a.ticket_id = tid
      · rw [if_pos hm]
        right; left; rfl
      · rw [if_neg hm]
        exact h a ha
    | fail tid notes now =>
      simp only [applyTicketOp, mark_ticket_failed] at hu
      obtain ⟨a, ha, rfl⟩ := List.mem_map.mp hu
      by_cases hm : a.ticket_id = tid
      · rw [if_pos hm]
        right; right; rfl
      · rw [if_neg hm]
        exact h a ha

/-- Claim C3, amended.  The code's statuses are `pending` (the spec's *open*,
the schema default), `completed` and `failed`; src/database.py has no
operation that writes `closed`.  Amended claim: under every sequence of
create / complete / fail operations a ticket's status stays in
{pending, completed, failed} — in particular a ticket never moves from open
to `closed`, directly or otherwise — but, as the counterexample shows, the
two terminal statuses overwrite each other freely, so the
"once terminal, never the other terminal" half of the original claim is
false. -/
theorem C3_status_stays_in_range (ops : List TicketOp) :
    ∀ t ∈ (runTicketOps Db.empty ops).payment_tickets,
      t.status = "pending" ∨ t.status = "completed" ∨ t.status = "failed" :=
  c3_status_range_aux ops Db.empty (by simp [Db.empty])

/-- The ticket row reached by the `c3OpsThenFailed` run. -/
def c3FailedTicket : TicketRow :=
  { ticket_id := "T1", user_id := 7, plan_type := "monthly", amount := 25,
    currency := "INR", status := "failed", payment_method := none,
    qr_code_path := none, upi_id := none, bank_details := none,
    created_at := 0, processed_at := some 20, group_chat_id := none,
    admin_notes := none }

/-- Witness for the amended C3: the concrete ticket reached by the
create-complete-fail run is in the store and its status lies in the allowed
range. -/
theorem C3_status_stays_in_range_witness :
    c3FailedTicket ∈ (runTicketOps Db.empty c3OpsThenFailed).payment_tickets ∧
    (c3FailedTicket.status = "pending" ∨ c3FailedTicket.status = "completed" ∨
      c3FailedTicket.status = "failed") :=
  ⟨by decide,
   C3_status_stays_in_range c3OpsThenFailed c3FailedTicket (by decide)⟩

/-! ### C4: renewal extends from the future expiry, restarts when expired -/

/-- Claim C4: for an account with an active subscription
(`find?` returns `current`), `renew_subscription` succeeds and writes, onto
every active row of the account, the expiry `oldExpiry + extraDays` when the
current expiry lies in the future, and `now + extraDays` when it does not;
for a strictly expired subscription the written expiry is *never*
`oldExpiry + extraDays`. -/
theorem C4_renew_anti_stacking (db : Db) (uid : Int) (plan : String)
    (duration_days now : Int) (current : SubRow)
    (hfind : db.subscriptions.find? (fun s => s.user_id == uid && s.is_active) =
      some current) :
    (renew_subscription db uid plan duration_days now).1 = true ∧
    (now < current.expiry_date →
      ∀ s ∈ (renew_subscription db uid plan duration_days now).2.subscriptions,
        s.user_id = uid → s.is_active = true →
        s.expiry_date = current.expiry_date + duration_days * 86400) ∧
    (current.expiry_date ≤ now →
      ∀ s ∈ (renew_subscription db uid plan duration_days now).2.subscriptions,
        s.user_id = uid → s.is_active = true →
        s.expiry_date = now + duration_days * 86400) ∧
    (current.expiry_date < now →
      ∀ s ∈ (renew_subscription db uid plan duration_days now).2.subscriptions,
        s.user_id = uid → s.is_active = true →
        s.expiry_date ≠ current.expiry_date + duration_days * 86400) := by
  have hexp : ∀ (e : Int),
      (if current.expiry_date > now then current.expiry_date + duration_days * 86400
        else now + duration_days * 86400) = e →
      ∀ s ∈ (renew_subscription db uid plan duration_days now).2.subscriptions,
        s.user_id = uid → s.is_active = true → s.expiry_date = e := by
    intro e he s hs hu ha
    unfold renew_subscription at hs
    rw [hfind] at hs
    simp only at hs
    obtain ⟨a, ha', rfl⟩ := List.mem_map.mp hs
    by_cases hm : a.user_id = uid ∧ a.is_active = true
    · rw [if_pos hm]
      simpa using he
    · rw [if_neg hm] at hu ha ⊢
      exact absurd ⟨hu, ha⟩ hm
  refine ⟨?_, ?_, ?_, ?_⟩
  · unfold renew_subscription
    rw [hfind]
  · intro hfut
    exact hexp _ (if_pos hfut)
  · intro hpast
    exact hexp _ (if_neg (not_lt.mpr hpast))
  · intro hstrict s hs hu ha
    have := hexp _ (if_neg (not_lt.mpr (le_of_lt hstrict))) s hs hu ha
    rw [this]
    intro hc
    exact absurd (add_right_cancel hc) (ne_of_gt hstrict)

/-- The expired active subscription used in the C4 witness: user 1, expiry at
time 100. -/
def c4Sub : SubRow :=
  { sub_id := 1, user_id := 1, plan_type := "monthly",
    storage_limit_gb := 5, storage_used_gb := 0, start_date := 0,
    expiry_date := 100, is_active := true, payment_method := none,
    transaction_id := none, auto_renew := false, created_at := 0,
    updated_at := 0 }

/-- Store for the C4 witness. -/
def c4Db : Db := { Db.empty with subscriptions := [c4Sub], next_sub_id := 2 }

/-- Witness for C4: renewing user 1 at time 1000 — past the expiry 100 —
succeeds and writes expiry `1000 + 30 * 86400`, which differs from the
stacked value `100 + 30 * 86400`. -/
theorem C4_renew_anti_stacking_witness :
    (renew_subscription c4Db 1 ("monthly") 30 1000).1 = true ∧
    (∀ s ∈ (renew_subscription c4Db 1 ("monthly") 30 1000).2.subscriptions,
      s.user_id = 1 → s.is_active = true →
      s.expiry_date = 1000 + 30 * 86400 ∧
        s.expiry_date ≠ 100 + 30 * 86400) := by
  have h := C4_renew_anti_stacking c4Db 1 ("monthly") 30 1000 c4Sub (by decide)
  refine ⟨h.1, fun s hs hu ha => ⟨h.2.2.1 (by decide) s hs hu ha, ?_⟩⟩
  have := h.2.2.2 (by decide) s hs hu ha
  simpa [c4Sub] using this

/-! ### C5: banned accounts vs approval -/

/-- Register account 1, ban it, then approve it while still banned. -/
def c5CounterOps : List UserOp :=
  [UserOp.register 1 ("alice") ("Alice") none none 0,
   UserOp.ban 1, UserOp.approve 1]

/-- Counterexample to claim C5 as stated: `approve_user` sets
`is_approved = TRUE` without touching `is_banned`, so approving a currently
banned account leaves it simultaneously banned and approved — the invariant
does not survive every sequence of register/approve/ban/unban operations. -/
theorem C5_counterexample_approve_banned_account :
    (runUserOps Db.empty c5CounterOps).users.map
      (fun r => (r.user_id, r.is_banned, r.is_approved)) = [(1, true, true)] := by
  decide

/-- One guarded account-registry operation preserves the
banned-implies-not-approved invariant. -/
theorem c5_step_preserves (db : Db) (op : UserOp)
    (hinv : ∀ r ∈ db.users, r.is_banned = true → r.is_approved = false)
    (hg : approveGuard db op = true) :
    ∀ r ∈ (applyUserOp db op).users, r.is_banned = true → r.is_approved = false := by
  intro r hr hb
  cases op with
  | register uid un fn ln pl now =>
    simp only [applyUserOp, create_user] at hr
    by_cases hany : db.users.any (fun r => r.user_id == uid) = true
    · rw [if_pos hany] at hr
      simp only at hr
      obtain ⟨a, ha, rfl⟩ := List.mem_map.mp hr
      unfold refreshUser at hb ⊢
      by_cases hm : a.user_id = uid
      · rw [if_pos hm] at hb ⊢
        exact hinv a ha (by simpa using hb)
      · rw [if_neg hm] at hb ⊢
        exact hinv a ha hb
    · rw [if_neg hany] at hr
      simp only [List.mem_append, List.mem_singleton] at hr
      rcases hr with hr | hr
      · exact hinv r hr hb
      · subst hr
        simp [newUserRow] at hb
  | approve uid =>
    simp only [applyUserOp, approve_user] at hr
    obtain ⟨a, ha, rfl⟩ := List.mem_map.mp hr
    by_cases hm : a.user_id = uid
    · rw [if_pos hm] at hb
      simp only [approveGuard, List.all_eq_true] at hg
      have := hg a ha
      rw [hm] at this
      simp at this
      simp at hb
      exact absurd hb (by simp [this])
    · rw [if_neg hm] at hb ⊢
      exact hinv a ha hb
  | ban uid =>
    simp only [applyUserOp, ban_user] at hr
    obtain ⟨a, ha, rfl⟩ := List.mem_map.mp hr
    by_cases hm : a.user_id = uid
    · rw [if_pos hm]
    · rw [if_neg hm] at hb ⊢
      exact hinv a ha hb
  | unban uid =>
    simp only [applyUserOp, unban_user] at hr
    obtain ⟨a, ha, rfl⟩ := List.mem_map.mp hr
    by_cases hm : a.user_id = uid
    · rw [if_pos hm] at hb
      simp at hb
    · rw [if_neg hm] at hb ⊢
      exact hinv a ha hb

/-- Claim C5, amended.  The invariant "no account is simultaneously banned
and approved" is preserved by every register / ban / unban and by every
approve aimed at a non-banned account (`guardedUserOps`); it does *not*
survive `approve_user` on a currently banned account, which — as the
counterexample shows — leaves the account both banned and approved, because
`approve_user` never clears `is_banned`. -/
theorem C5_banned_not_approved_under_guarded_ops (db : Db) (ops : List UserOp)
    (hinv : ∀ r ∈ db.users, r.is_banned = true → r.is_approved = false)
    (hg : guardedUserOps db ops = true) :
    ∀ r ∈ (runUserOps db ops).users, r.is_banned = true → r.is_approved = false := by
  induction ops generalizing db with
  | nil => exact hinv
  | cons op ops ih =>
    simp only [guardedUserOps, Bool.and_eq_true] at hg
    exact ih (applyUserOp db op) (c5_step_preserves db op hinv hg.1) hg.2

/-- A guarded sequence: register, approve while unbanned, then ban. -/
def c5GuardedOps : List UserOp :=
  [UserOp.register 1 ("alice") ("Alice") none none 0,
   UserOp.approve 1, UserOp.ban 1]

/-- Witness for the amended C5 on a concrete guarded run. -/
theorem C5_banned_not_approved_witness :
    guardedUserOps Db.empty c5GuardedOps = true ∧
    (∀ r ∈ (runUserOps Db.empty c5GuardedOps).users,
      r.is_banned = true → r.is_approved = false) :=
  ⟨by decide,
   C5_banned_not_approved_under_guarded_ops Db.empty c5GuardedOps
     (by simp [Db.empty]) (by decide)⟩

/-! ### C6: the bytes-used counter never goes negative -/

/-- One storage operation with a nonnegative size keeps every subscription's
used counter nonnegative: `commit` adds a nonnegative quantity, `release`
clamps at zero via `GREATEST(storage_used_gb - $1, 0)`, `reserve` reads
only. -/
theorem c6_step_preserves (db : Db) (op : StorageOp) (hsz : 0 ≤ op.size)
    (h : ∀ s ∈ db.subscriptions, 0 ≤ s.storage_used_gb) :
    ∀ s ∈ (applyStorageOp db op).subscriptions, 0 ≤ s.storage_used_gb := by
  intro s hs
  cases op with
  | reserve uid q =>
    exact h s hs
  | commit uid q now =>
    simp only [applyStorageOp, update_storage_usage, if_pos rfl] at hs
    obtain ⟨a, ha, rfl⟩ := List.mem_map.mp hs
    by_cases hm : a.user_id = uid ∧ a.is_active = true
    · rw [if_pos hm]
      exact add_nonneg (h a ha) hsz
    · rw [if_neg hm]
      exact h a ha
  | release uid q now =>
    have hne : ¬(("remove" : String) = "add") := by decide
    simp only [applyStorageOp, update_storage_usage, if_neg hne, if_pos rfl] at hs
    obtain ⟨a, ha, rfl⟩ := List.mem_map.mp hs
    by_cases hm : a.user_id = uid ∧ a.is_active = true
    · rw [if_pos hm]
      exact le_max_right _ _
    · rw [if_neg hm]
      exact h a ha

/-- Claim C6: starting from any store whose used counters are nonnegative,
every call order of reserve / commit / release with nonnegative sizes —
including duplicate releases of the same file — leaves
`storage_used_gb ≥ 0` on every subscription after every operation (every
prefix of a sequence is itself a sequence, so this covers each intermediate
state). -/
theorem C6_storage_used_never_negative (db : Db) (ops : List StorageOp)
    (h0 : ∀ s ∈ db.subscriptions, 0 ≤ s.storage_used_gb)
    (hsz : ∀ op ∈ ops, 0 ≤ op.size) :
    ∀ s ∈ (runStorageOps db ops).subscriptions, 0 ≤ s.storage_used_gb := by
  induction ops generalizing db with
  | nil => exact h0
  | cons op ops ih =>
    exact ih (applyStorageOp db op)
      (c6_step_preserves db op (hsz op (List.mem_cons_self op ops))
        (fun s hs => h0 s hs))
      (fun o ho => hsz o (List.mem_cons_of_mem op ho))

/-- Store for the C6 witness: one active subscription, nothing used yet. -/
def c6Db : Db := { Db.empty with subscriptions := [c2Sub], next_sub_id := 2 }

/-- A call order with a double release of the same 4 GB file. -/
def c6Ops : List StorageOp :=
  [StorageOp.commit 1 3 10, StorageOp.release 1 4 20, StorageOp.release 1 4 30,
   StorageOp.reserve 1 2, StorageOp.commit 1 1 40]

/-- Witness for C6 on a concrete run with a duplicate release. -/
theorem C6_storage_used_never_negative_witness :
    (∀ op ∈ c6Ops, 0 ≤ op.size) ∧
    (∀ s ∈ (runStorageOps c6Db c6Ops).subscriptions, 0 ≤ s.storage_used_gb) :=
  ⟨by decide,
   C6_storage_used_never_negative c6Db c6Ops (by decide) (by decide)⟩

/-! ### C7: admin gating of the ticket complete / fail callbacks -/

/-- The pending ticket of the C7 counterexample. -/
def c7Ticket : TicketRow :=
  { ticket_id := "T1", user_id := 5, plan_type := "monthly", amount := 25,
    currency := "INR", status := "pending", payment_method := none,
    qr_code_path := none, upi_id := none, bank_details := none,
    created_at := 0, processed_at := none, group_chat_id := none,
    admin_notes := none }

/-- Store for the C7 counterexample. -/
def c7Db : Db := { Db.empty with payment_tickets := [c7Ticket] }

/-- Counterexample to claim C7 as stated: with the configured admin being
user 100, the non-admin caller 999 invoking the Mark-Complete / Mark-Failed
callbacks receives *no authorization error* — `handle_ticket_management`
contains no `is_admin` check and these payloads match none of its branches,
so the handler merely answers the callback.  (It also performs no state
change, so the "never silently succeeds" half of the claim does hold.) -/
theorem C7_counterexample_no_authorization_error :
    is_admin 100 999 = false ∧
    handle_ticket_management c7Db 999 ("ticket_complete_T1") =
      (AdminResponse.answerOnly, c7Db) ∧
    handle_ticket_management c7Db 999 ("ticket_fail_T1") =
      (AdminResponse.answerOnly, c7Db) ∧
    AdminResponse.answerOnly ≠ AdminResponse.unauthorized := by
  refine ⟨rfl, by decide, by decide, by decide⟩

/-- Claim C7, amended.  `handle_ticket_management` is not admin-gated at all:
for every store, caller and callback payload it (i) never mutates the store —
in particular a non-admin (or admin) invoking the complete / fail callbacks
changes no ticket state, the payloads being dispatched to no mutation —
(ii) never emits an authorization error, and (iii) behaves identically for
every caller, admin or not.  So a non-admin invocation is a silent no-op
rather than either a silent success or the authorization failure the claim
describes. -/
theorem C7_handler_never_gates_never_mutates (db : Db) (caller_id : Int)
    (data : String) :
    (handle_ticket_management db caller_id data).2 = db ∧
    (handle_ticket_management db caller_id data).1 ≠ AdminResponse.unauthorized ∧
    (∀ other_id : Int,
      handle_ticket_management db other_id data =
        handle_ticket_management db caller_id data) := by
  unfold handle_ticket_management
  refine ⟨?_, ?_, fun other_id => rfl⟩
  · repeat' split
    all_goals rfl
  · repeat' split
    all_goals simp

/-! ### C8: register (`create_user`) is an idempotent upsert -/

/-- Two maps agree when the functions agree on the list's elements. -/
theorem map_congr_fn {α β : Type} (f g : α → β) :
    ∀ l : List α, (∀ a ∈ l, f a = g a) → l.map f = l.map g
  | [], _ => rfl
  | a :: l, h => by
    rw [List.map_cons, List.map_cons, h a (List.mem_cons_self a l),
        map_congr_fn f g l (fun b hb => h b (List.mem_cons_of_mem a hb))]

/-- The upsert's UPDATE arm never changes the primary key. -/
theorem c8_refresh_keeps_key (uid : Int) (un fn : String) (ln pl : Option String)
    (now : Int) (r : UserRow) :
    (refreshUser uid un fn ln pl now r).user_id = r.user_id := by
  unfold refreshUser
  by_cases hm : r.user_id = uid
  · rw [if_pos hm]
  · rw [if_neg hm]

/-- The upsert's UPDATE arm is idempotent on a row. -/
theorem c8_refresh_idem (uid : Int) (un fn : String) (ln pl : Option String)
    (now : Int) (r : UserRow) :
    refreshUser uid un fn ln pl now (refreshUser uid un fn ln pl now r) =
      refreshUser uid un fn ln pl now r := by
  unfold refreshUser
  by_cases hm : r.user_id = uid <;> simp [hm]

/-- The UPDATE arm does not change which user ids occur in the table. -/
theorem c8_any_map (uid : Int) (un fn : String) (ln pl : Option String)
    (now : Int) :
    ∀ l : List UserRow,
      (l.map (refreshUser uid un fn ln pl now)).any (fun r => r.user_id == uid) =
        l.any (fun r => r.user_id == uid)
  | [] => rfl
  | a :: l => by
    simp only [List.map_cons, List.any_cons, c8_refresh_keeps_key,
      c8_any_map uid un fn ln pl now l]

/-- Claim C8: `create_user` is an idempotent upsert.  (i) The row carrying
the target user id always ends up with exactly the supplied display fields
(username, first name, last name, profile link) and `last_active = now`;
(ii) when the account already exists, every row keeps its key, its
`is_approved` / `is_banned` / `is_admin` flags, its secret code and its join
date — only display data changes; (iii) calling `create_user` twice with the
same arguments (including the same `now`, i.e. at the same instant) produces
exactly the state of calling it once. -/
theorem C8_register_idempotent_upsert (db : Db) (uid : Int) (un fn : String)
    (ln pl : Option String) (now : Int) :
    (∀ r2 ∈ (create_user db uid un fn ln pl now).2.users, r2.user_id = uid →
        r2.username = un ∧ r2.first_name = fn ∧ r2.last_name = ln ∧
        r2.profile_link = pl ∧ r2.last_active = now) ∧
    (db.users.any (fun r => r.user_id == uid) = true →
      ∀ r2 ∈ (create_user db uid un fn ln pl now).2.users,
        ∃ r1 ∈ db.users, r2.user_id = r1.user_id ∧
          r2.is_approved = r1.is_approved ∧ r2.is_banned = r1.is_banned ∧
          r2.is_admin = r1.is_admin ∧ r2.secret_code = r1.secret_code ∧
          r2.join_date = r1.join_date) ∧
    create_user (create_user db uid un fn ln pl now).2 uid un fn ln pl now =
      create_user db uid un fn ln pl now := by
  refine ⟨?_, ?_, ?_⟩
  · intro r2 h2 hid
    simp only [create_user] at h2
    by_cases hany : db.users.any (fun r => r.user_id == uid) = true
    · rw [if_pos hany] at h2
      simp only at h2
      obtain ⟨a, ha, rfl⟩ := List.mem_map.mp h2
      unfold refreshUser at hid ⊢
      by_cases hm : a.user_id = uid
      · rw [if_pos hm]
        simp
      · rw [if_neg hm] at hid
        exact absurd hid hm
    · rw [if_neg hany] at h2
      simp only [List.mem_append, List.mem_singleton] at h2
      rcases h2 with h2 | h2
      · have hf : (db.users.any fun r => r.user_id == uid) = false :=
          Bool.eq_false_iff.mpr hany
        rw [List.any_eq_false] at hf
        exact absurd (by simp [hid]) (hf r2 h2)
      · subst h2
        simp [newUserRow]
  · intro hany r2 h2
    simp only [create_user, if_pos hany] at h2
    obtain ⟨a, ha, rfl⟩ := List.mem_map.mp h2
    refine ⟨a, ha, ?_⟩
    unfold refreshUser
    by_cases hm : a.user_id = uid <;> simp [hm]
  · by_cases hany : db.users.any (fun r => r.user_id == uid) = true
    · simp only [create_user, if_pos hany]
      rw [if_pos (by rw [c8_any_map]; exact hany)]
      have : (db.users.map (refreshUser uid un fn ln pl now)).map
          (refreshUser uid un fn ln pl now) =
          db.users.map (refreshUser uid un fn ln pl now) := by
        rw [List.map_map]
        exact map_congr_fn _ _ db.users
          (fun a _ => c8_refresh_idem uid un fn ln pl now a)
      rw [this]
    · simp only [create_user, if_neg hany]
      have hany2 : ((db.users ++ [newUserRow uid un fn ln pl now]).any
          (fun r => r.user_id == uid)) = true := by
        rw [List.any_append]
        simp [newUserRow]
      rw [if_pos hany2]
      have hfix : ∀ a ∈ db.users, refreshUser uid un fn ln pl now a = a := by
        intro a ha
        have hf : (db.users.any fun r => r.user_id == uid) = false :=
          Bool.eq_false_iff.mpr hany
        rw [List.any_eq_false] at hf
        have hne : ¬(a.user_id = uid) := fun hc => hf a ha (by simp [hc])
        unfold refreshUser
        rw [if_neg hne]
      have hnew : refreshUser uid un fn ln pl now (newUserRow uid un fn ln pl now) =
          newUserRow uid un fn ln pl now := by
        simp [refreshUser, newUserRow]
      rw [List.map_append]
      rw [map_eq_self_of_fixed _ db.users hfix]
      simp [hnew]

/-- The pre-existing account of the C8 witness: approved admin with a secret
code, so the frame conditions are visible. -/
def c8User : UserRow :=
  { user_id := 1, username := "old", first_name := "Old",
    last_name := some "Name", profile_link := none, secret_code := some "s3",
    is_approved := true, is_admin := true, is_banned := false,
    join_date := 5, last_active := 5 }

/-- Store for the C8 witness. -/
def c8Db : Db := { Db.empty with users := [c8User] }

/-- Witness for C8: re-registering the existing account 1 keeps key, flags,
secret code and join date of every row, and a second identical call changes
nothing. -/
theorem C8_register_idempotent_upsert_witness :
    (∀ r2 ∈ (create_user c8Db 1 ("neo") ("Neo") none none 50).2.users,
      ∃ r1 ∈ c8Db.users, r2.user_id = r1.user_id ∧
        r2.is_approved = r1.is_approved ∧ r2.is_banned = r1.is_banned ∧
        r2.is_admin = r1.is_admin ∧ r2.secret_code = r1.secret_code ∧
        r2.join_date = r1.join_date) ∧
    create_user (create_user c8Db 1 ("neo") ("Neo") none none 50).2
        1 ("neo") ("Neo") none none 50 =
      create_user c8Db 1 ("neo") ("Neo") none none 50 :=
  ⟨(C8_register_idempotent_upsert c8Db 1 ("neo") ("Neo") none none 50).2.1
     (by decide),
   (C8_register_idempotent_upsert c8Db 1 ("neo") ("Neo") none none 50).2.2⟩

/-! ### C9: approve / ban / unban on an unknown identity -/

/-- Counterexample to claim C9 as stated: on the empty store, approving,
banning or unbanning the unknown identity 1 leaves the store untouched but
returns `true` — the *same* value every successful update returns.  The
Python methods return False only when an exception is raised; a zero-row
UPDATE raises nothing, so no NotFound signal distinct from success exists,
contradicting "reports a NotFound error rather than reporting success". -/
theorem C9_counterexample_success_reported_for_unknown_id :
    approve_user Db.empty 1 = (true, Db.empty) ∧
    ban_user Db.empty 1 = (true, Db.empty) ∧
    unban_user Db.empty 1 = (true, Db.empty) := by
  refine ⟨rfl, rfl, rfl⟩

/-- Claim C9, amended: `approve_user`, `ban_user` and `unban_user` applied to
a `user_id` matching no account are no-ops on the store — the UPDATE matches
zero rows — but they report success (`true`), not a NotFound error. -/
theorem C9_unknown_identity_noop_but_success (db : Db) (uid : Int)
    (h : ∀ r ∈ db.users, r.user_id ≠ uid) :
    approve_user db uid = (true, db) ∧
    ban_user db uid = (true, db) ∧
    unban_user db uid = (true, db) := by
  refine ⟨?_, ?_, ?_⟩
  · unfold approve_user
    rw [map_eq_self_of_fixed _ db.users
      (fun a ha => if_neg (h a ha))]
  · unfold ban_user
    rw [map_eq_self_of_fixed _ db.users
      (fun a ha => if_neg (h a ha))]
  · unfold unban_user
    rw [map_eq_self_of_fixed _ db.users
      (fun a ha => if_neg (h a ha))]

/-- Witness for the amended C9: the store `c8Db` holds only account 1, so
identity 42 is unknown. -/
theorem C9_unknown_identity_noop_witness :
    approve_user c8Db 42 = (true, c8Db) ∧
    ban_user c8Db 42 = (true, c8Db) ∧
    unban_user c8Db 42 = (true, c8Db) :=
  C9_unknown_identity_noop_but_success c8Db 42 (by decide)

/-! ### C10: the ownership guard of `delete_file` -/

/-- The file of the C10 scenario: 1 GB, owned by account 5. -/
def c10File : FileRow :=
  { file_id := 1, user_id := 5, file_name := "doc.pdf", file_type := "document",
    file_size := 1073741824, file_path := "/tmp/doc.pdf",
    telegram_file_id := "tg-5-1", upload_date := 0, is_encrypted := true,
    encryption_key := none, share_count := 0, is_shared := false,
    shared_link := none, description := none, tags := [],
    last_accessed := 0, access_count := 0 }

/-- Account 5's active subscription with the 1 GB file already counted. -/
def c10Sub : SubRow :=
  { sub_id := 1, user_id := 5, plan_type := "monthly",
    storage_limit_gb := 5, storage_used_gb := 1, start_date := 0,
    expiry_date := 2592000, is_active := true, payment_method := none,
    transaction_id := none, auto_renew := false, created_at := 0,
    updated_at := 0 }

/-- Store for the C10 theorems. -/
def c10Db : Db :=
  { Db.empty with
      subscriptions := [c10Sub], next_sub_id := 2,
      files := [c10File], next_file_id := 2 }

/-- Counterexample to claim C10 as stated: the file exists and its owner (5)
differs from the given `user_id` 0, yet `delete_file` returns True, removes
the file record and decrements the owner's bytes-used counter from 1 GB to
0 — the Python guard `if user_id and file['user_id'] != user_id` treats the
falsy 0 like an absent `user_id` and skips the ownership check entirely. -/
theorem C10_counterexample_zero_caller_bypasses_guard :
    (5 : Int) ≠ 0 ∧
    (delete_file c10Db 1 (some 0) 99).1 = true ∧
    (delete_file c10Db 1 (some 0) 99).2.files = [] ∧
    (delete_file c10Db 1 (some 0) 99).2.subscriptions.map
      (fun s => s.storage_used_gb) = [0] := by
  refine ⟨by decide, by decide, by decide, ?_⟩
  have hne : ¬(("remove" : String) = "add") := by decide
  norm_num [delete_file, update_storage_usage, c10Db, c10Sub, c10File, Db.empty,
    List.find?, if_neg hne]

/-- Claim C10, amended: when the file exists and the given `user_id` is
*nonzero* (truthy in Python) and differs from the file's owner, `delete_file`
returns False and changes nothing — the file record remains and no
subscription counter moves.  A given `user_id` of 0 escapes the guard, as the
counterexample shows. -/
theorem C10_delete_file_ownership_guard (db : Db) (fid uid now : Int)
    (f : FileRow)
    (hfind : db.files.find? (fun g => g.file_id == fid) = some f)
    (huid : uid ≠ 0) (hown : f.user_id ≠ uid) :
    delete_file db fid (some uid) now = (false, db) := by
  unfold delete_file
  rw [hfind]
  simp only
  rw [if_pos (by simp [huid, hown])]

/-- Witness for the amended C10: caller 7 ≠ 0 tries to delete account 5's
file in `c10Db`; nothing happens and False is returned. -/
theorem C10_delete_file_ownership_guard_witness :
    delete_file c10Db 1 (some 7) 99 = (false, c10Db) :=
  C10_delete_file_ownership_guard c10Db 1 7 99 c10File (by decide) (by decide)
    (by decide)

end FileBot
